import Mathlib

/-!
Shallow embedding of the a10-guardian core services, translated from the
Python sources:

* `core/client.py` — session-authenticated request executor
  (`_request`, `_is_session_expired`, `_inject_csrf_token`);
* `services/auth_service.py` — session manager
  (`validate_session`, `login`, `get_authenticated_session`);
* `services/mitigation_service.py` — reconciler
  (`get_zone_by_ip`, `ensure_mitigation`);
* `services/zone_change_service.py` — zone change detector
  (`normalize_zone_for_comparison`, `detect_zone_changes`,
  `get_zone_change_user`, `notify_zone_created/modified/deleted`).

Python dicts are modelled as association lists (`Dict V`), JSON values by an
abstract value type `V` with decidable equality, remote calls by oracle
environments whose fields return `Except Exn` results (an `Exn` is the
message of the raised Python exception), and exception control flow by
explicit `Except` matching.  Traces record which remote mutating calls a
routine issued and which notifications it attempted.
-/

set_option autoImplicit false

/-- Association-list model of a Python `dict` with string keys. -/
abbrev Dict (V : Type) := List (String × V)

/-- Model of the Python exception payload: the message carried by `str(e)`. -/
abbrev Exn := String

/-- Checks whether `pat` is a prefix of `s`, over character lists. -/
def charsStartsWith : List Char → List Char → Bool
  | _, [] => true
  | [], _ :: _ => false
  | c :: cs, p :: ps => c == p && charsStartsWith cs ps

/-- Checks whether `pat` occurs contiguously in `s`, over character lists. -/
def charsContain : List Char → List Char → Bool
  | [], pat => pat.isEmpty
  | c :: rest, pat => charsStartsWith (c :: rest) pat || charsContain rest pat

/-- Model of Python's substring test `sub in s` (the empty pattern is
contained in every string). -/
def containsSubstr (s sub : String) : Bool :=
  charsContain s.data sub.data

/-- Model of Python string interpolation of an `Optional[str]`: `None`
renders as `"None"`. -/
def pyStr : Option String → String
  | none => "None"
  | some s => s

/-- Model of Python truthiness of an `Optional[str]`: `None` and the empty
string are falsy. -/
def pyTruthyStr : Option String → Bool
  | none => false
  | some s => !s.isEmpty

/-- Substring containment as a proposition: `sub` occurs contiguously in
`s`. -/
def strContains (s sub : String) : Prop :=
  ∃ pre post, s = pre ++ (sub ++ post)

/-- Model of Python `", ".join(names)`. -/
def joinComma : List String → String
  | [] => ""
  | [x] => x
  | x :: xs => x ++ ", " ++ joinComma xs

/-! ## Zone change service (`services/zone_change_service.py`) -/

/-- Volatile fields stripped by `normalize_zone_for_comparison`
(`zone_change_service.py` lines 95-105). -/
def volatile_fields : List String :=
  ["created", "created_time", "modified", "modified_time", "last_modified",
   "updated_at", "stats", "counters", "runtime_stats"]

/-- Embedding of `normalize_zone_for_comparison`: copy the dict and `pop`
every volatile field, i.e. keep exactly the pairs whose key is not
volatile. -/
def normalize_zone_for_comparison {V : Type} (zone : Dict V) : Dict V :=
  zone.filter (fun kv => !(volatile_fields.contains kv.1))

/-- Python `dict` equality is content equality: both dicts agree on the
lookup of every key occurring in either. -/
def dictEqb {V : Type} [DecidableEq V] (d1 d2 : Dict V) : Bool :=
  decide (∀ k ∈ d1.map Prod.fst, d1.lookup k = d2.lookup k) &&
  decide (∀ k ∈ d2.map Prod.fst, d1.lookup k = d2.lookup k)

/-- Entry of `known_zones`: `{"snapshot": ..., "first_seen": ...}`. -/
structure KnownEntry (V : Type) where
  snapshot : Dict V
  first_seen : Nat
  deriving DecidableEq

/-- Comparison performed for one common id inside `detect_zone_changes`:
normalize the stored snapshot and the current config, report `true` when
they differ as dicts. -/
def zone_modified_check {V : Type} [DecidableEq V]
    (known_zones : Dict (KnownEntry V)) (current_zones : Dict (Dict V))
    (zone_id : String) : Bool :=
  match known_zones.lookup zone_id, current_zones.lookup zone_id with
  | some entry, some cur =>
      !(dictEqb (normalize_zone_for_comparison entry.snapshot)
                (normalize_zone_for_comparison cur))
  | _, _ => false

/-- Embedding of `detect_zone_changes`: returns
`(new_ids, deleted_ids, modified_ids)` computed from the key sets of the
known and current zone maps. -/
def detect_zone_changes {V : Type} [DecidableEq V]
    (known_zones : Dict (KnownEntry V)) (current_zones : Dict (Dict V)) :
    Finset String × Finset String × Finset String :=
  let current_ids : Finset String := (current_zones.map Prod.fst).toFinset
  let known_ids : Finset String := (known_zones.map Prod.fst).toFinset
  let new_ids := current_ids \ known_ids
  let deleted_ids := known_ids \ current_ids
  let modified_ids := (current_ids ∩ known_ids).filter
    (fun zone_id => zone_modified_check known_zones current_zones zone_id = true)
  (new_ids, deleted_ids, modified_ids)

/-- Parse state of an audit event's `event_data` JSON string: missing or
empty, malformed (a `JSONDecodeError`), or parsed with its `zone_id` and
`user_id` fields. -/
inductive AuditEventData where
  | empty
  | malformed
  | parsed (zone_id : Option String) (user_id : Option String)
  deriving DecidableEq

/-- One entry of the audit-event listing. -/
structure AuditEvent where
  type : Option String
  event_data : AuditEventData
  deriving DecidableEq

/-- Audit listing response; `object_list = none` models a response missing
the `object_list` key (or a falsy response). -/
structure AuditResponse where
  object_list : Option (List AuditEvent)
  deriving DecidableEq

/-- Event-type mapping from `get_zone_change_user`. -/
def event_type_map : List (String × String) :=
  [("created", "a10.agalaxy.tps.ddos.zone.created"),
   ("updated", "a10.agalaxy.tps.ddos.zone.updated"),
   ("deleted", "a10.agalaxy.tps.ddos.zone.deleted")]

/-- The scanning loop of `get_zone_change_user`: walk the audit events in
order; on the first event of the target type whose parsed data matches the
zone id with a truthy user, return `none` when the user is the system's own
account and the user otherwise; skip all other events. -/
def scan_audit_events (own_user target_type zone_id : String) :
    List AuditEvent → Option String
  | [] => none
  | e :: rest =>
    match e.type == some target_type, e.event_data with
    | true, .parsed event_zone_id user_id =>
        if event_zone_id == some zone_id && pyTruthyStr user_id then
          if user_id == some own_user then none else user_id
        else scan_audit_events own_user target_type zone_id rest
    | _, _ => scan_audit_events own_user target_type zone_id rest

/-- Embedding of `get_zone_change_user`: any failure of the audit fetch, a
missing `object_list`, an unknown event type, or no matching entry all
yield `none`; a matching entry attributed to the system's own account also
yields `none`. -/
def get_zone_change_user (own_user : String) (audit : Except Exn AuditResponse)
    (zone_id event_type : String) : Option String :=
  match event_type_map.lookup event_type with
  | none => none
  | some target =>
    match audit with
    | .error _ => none
    | .ok resp =>
      match resp.object_list with
      | none => none
      | some events => scan_audit_events own_user target zone_id events

/-- Settings consumed by the zone change notifiers. -/
structure ZoneChangeSettings where
  notify_zone_created : Bool
  notify_zone_modified : Bool
  notify_zone_deleted : Bool
  a10_username : String

/-- Zone fields read by the notifiers. -/
structure ZoneInfo where
  id : Option String
  zone_name : Option String
  operational_mode : Option String
  profile_name : Option String
  zone_services : List String
  deriving DecidableEq

/-- Abstract notification event: title, event type tag, and the attributed
actor carried in the fields. -/
structure ZoneNotification where
  title : String
  event_type : String
  user : String
  deriving DecidableEq

/-- Embedding of `notify_zone_created`: gated by the feature flag, then
suppressed whenever the audit attribution returns `none`. -/
def notify_zone_created (cfg : ZoneChangeSettings)
    (audit : Except Exn AuditResponse) (zone : ZoneInfo) :
    Option ZoneNotification :=
  if !cfg.notify_zone_created then none
  else
    let zone_id := zone.id.getD "Unknown"
    match get_zone_change_user cfg.a10_username audit zone_id "created" with
    | none => none
    | some user => some ⟨"Zone Created", "zone_created", user⟩

/-- Embedding of `notify_zone_modified`. -/
def notify_zone_modified (cfg : ZoneChangeSettings)
    (audit : Except Exn AuditResponse) (zone_id : String)
    (old_zone new_zone : ZoneInfo) : Option ZoneNotification :=
  if !cfg.notify_zone_modified then none
  else
    match get_zone_change_user cfg.a10_username audit zone_id "updated" with
    | none => none
    | some user => some ⟨"Zone Modified", "zone_modified", user⟩

/-- Embedding of `notify_zone_deleted`. -/
def notify_zone_deleted (cfg : ZoneChangeSettings)
    (audit : Except Exn AuditResponse) (zone_id : String)
    (zone : ZoneInfo) : Option ZoneNotification :=
  if !cfg.notify_zone_deleted then none
  else
    match get_zone_change_user cfg.a10_username audit zone_id "deleted" with
    | none => none
    | some user => some ⟨"Zone Deleted", "zone_deleted", user⟩

/-! ## Session manager (`services/auth_service.py`) -/

/-- Response to the validation probe sent by `validate_session` (a GET on
the dashboard with redirects disabled).  `location` is
`response.headers.get("Location", "")`, `url` the response URL, `body` the
response text (which the code never reads). -/
structure ProbeResponse where
  status : Nat
  location : String
  url : String
  body : String
  deriving DecidableEq

/-- Outcome of the probe: either a response or a network failure
(`requests.RequestException`). -/
inductive ProbeResult where
  | resp (r : ProbeResponse)
  | netError
  deriving DecidableEq

/-- Embedding of `validate_session` (`auth_service.py` lines 70-98):
status 200 is valid; a 302 with `login` in the Location header is invalid;
otherwise the session is invalid only when the response URL contains
`auth/login`; a network error is invalid. -/
def validate_session (probe : ProbeResult) : Bool :=
  match probe with
  | .netError => false
  | .resp r =>
    if r.status == 200 then true
    else if r.status == 302 && containsSubstr r.location "login" then false
    else if containsSubstr r.url "auth/login" then false
    else true

/-- Login page GET result, abstracted to the outcomes of the two regex
extractions performed on its body: the `csrfmiddlewaretoken` value and the
optional `region` value. -/
structure LoginPage where
  csrf_token : Option String
  region : Option String
  deriving DecidableEq

/-- Login POST result: its final status, final URL, body text, and the
session's cookie set after the POST. -/
structure LoginPost where
  status : Nat
  url : String
  text : String
  cookies : Dict String
  deriving DecidableEq

/-- Remote environment seen by one run of `login`. -/
structure LoginEnv where
  login_url : String
  get_login_page : Except Exn LoginPage
  post_login : Except Exn LoginPost

/-- Result of a `login` run: the returned session (as its cookie set), and
the list of cookie sets persisted to the session cache via
`save_session`. -/
structure LoginTrace where
  result : Option (Dict String)
  saved : List (Dict String)
  deriving DecidableEq

/-- The success test of the first return branch of `login`:
`post_response.url != self.login_url and "login" not in post_response.url`. -/
def login_redirected_away (login_url : String) (post : LoginPost) : Bool :=
  !(post.url == login_url) && !(containsSubstr post.url "login")

/-- Embedding of `login` (`auth_service.py` lines 100-168).  A network
failure on either request, a missing CSRF token, or a non-2xx POST yields
`None`.  When the POST's final URL moved away from the login page the
session is saved and returned; otherwise, when the body still contains the
`id_username` marker the login failed; otherwise the session is returned
without being saved. -/
def login (env : LoginEnv) : LoginTrace :=
  match env.get_login_page with
  | .error _ => ⟨none, []⟩
  | .ok page =>
    match page.csrf_token with
    | none => ⟨none, []⟩
    | some _ =>
      match env.post_login with
      | .error _ => ⟨none, []⟩
      | .ok post =>
        if 400 ≤ post.status then ⟨none, []⟩
        else if login_redirected_away env.login_url post then
          ⟨some post.cookies, [post.cookies]⟩
        else if containsSubstr post.text "id_username" then ⟨none, []⟩
        else ⟨some post.cookies, []⟩

/-- Environment of `get_authenticated_session`: the cached session loaded
from disk (if any), the validation probe outcome, and the login
environment. -/
structure AuthEnv where
  cached : Option (Dict String)
  probe : ProbeResult
  login_env : LoginEnv

/-- Result of `get_authenticated_session`: the session handed back and
whether a full login was performed. -/
structure GetAuthTrace where
  result : Option (Dict String)
  login_called : Bool
  deriving DecidableEq

/-- Embedding of `get_authenticated_session` (`auth_service.py` lines
170-185): a cached session that validates is returned as-is, skipping
login; otherwise a full login is performed. -/
def get_authenticated_session (env : AuthEnv) : GetAuthTrace :=
  match env.cached with
  | some s =>
    if validate_session env.probe then ⟨some s, false⟩
    else ⟨(login env.login_env).result, true⟩
  | none => ⟨(login env.login_env).result, true⟩

/-! ## Request executor (`core/client.py`) -/

/-- Transport-level HTTP response: status code, final URL, parsed body. -/
structure HttpResponse where
  status : Nat
  url : String
  body : String
  deriving DecidableEq

/-- Session state relevant to the executor: the `csrftoken` cookie. -/
structure A10Session where
  csrftoken : Option String
  deriving DecidableEq

/-- Embedding of `_is_session_expired`: status 403, or a 200 whose final
URL contains `login`. -/
def is_session_expired (r : HttpResponse) : Bool :=
  r.status == 403 || (r.status == 200 && containsSubstr r.url "login")

/-- Embedding of `_inject_csrf_token` restricted to the `X-Csrftoken`
header: when the session holds a `csrftoken` cookie the header is set to
it, otherwise the headers (and any previously injected token) are left
unchanged. -/
def inject_csrf_token (s : A10Session) (header : Option String) : Option String :=
  match s.csrftoken with
  | some t => some t
  | none => header

/-- Outcome of `_request`: parsed JSON body, the empty result for 204, an
`HTTPError` raised by `raise_for_status`, or a `ConnectionError` from a
failed `connect`. -/
inductive ReqOutcome where
  | ok (body : String)
  | noContent
  | httpError (status : Nat)
  | authError
  deriving DecidableEq

/-- The tail of `_request` after the response is settled:
`raise_for_status` raises on status ≥ 400, a 204 returns the empty dict,
anything else returns the parsed body. -/
def finalize_response (r : HttpResponse) : ReqOutcome :=
  if 400 ≤ r.status then .httpError r.status
  else if r.status == 204 then .noContent
  else .ok r.body

/-- Trace of one `_request` call: its outcome and, per transport
invocation in order, the `X-Csrftoken` header it carried. -/
structure RequestTrace where
  outcome : ReqOutcome
  sent : List (Option String)
  deriving DecidableEq

/-- Body of `_request` once a session is held: inject the CSRF header for
state-changing verbs, issue the request, and on session expiry reconnect,
re-inject the token from the renewed session, and replay exactly once. -/
def run_request_body (state_changing : Bool) (s : A10Session)
    (connects : List A10Session) (transport : Nat → HttpResponse) :
    RequestTrace :=
  let h1 := if state_changing then inject_csrf_token s none else none
  let r1 := transport 0
  if is_session_expired r1 then
    match connects with
    | [] => ⟨.authError, [h1]⟩
    | s2 :: _ =>
      let h2 := if state_changing then inject_csrf_token s2 h1 else h1
      let r2 := transport 1
      ⟨finalize_response r2, [h1, h2]⟩
  else ⟨finalize_response r1, [h1]⟩

/-- Embedding of `_request` (`client.py` lines 50-102).  `session0` is the
client's current session, `connects` the sessions produced by successive
`connect()` calls, and `transport i` the response to the `i`-th transport
invocation of this call. -/
def run_request (state_changing : Bool) (session0 : Option A10Session)
    (connects : List A10Session) (transport : Nat → HttpResponse) :
    RequestTrace :=
  match session0, connects with
  | none, [] => ⟨.authError, []⟩
  | none, s :: rest => run_request_body state_changing s rest transport
  | some s, _ => run_request_body state_changing s connects transport

/-! ## Mitigation reconciler (`services/mitigation_service.py`) -/

/-- Monitor/deploy payload of a template; the reconciler only deep-copies
it and passes it to the monitor-enable call. -/
abbrev MonitorPayload := Dict String

/-- The fields of a template's `zone_payload` that `ensure_mitigation`
reads or stamps. -/
structure PortConfig where
  zone_service_list : List String
  deriving DecidableEq

/-- Creation payload of a template. -/
structure ZonePayload where
  zone_name : Option String
  ip_list : List String
  input_ips : List String
  port : Option PortConfig
  profile_name : Option String
  deriving DecidableEq

/-- Template data loaded by `get_template`. -/
structure TemplateData where
  zone_payload : ZonePayload
  monitor_payload : MonitorPayload
  deriving DecidableEq

/-- Template metadata entry returned by `list_templates`. -/
structure TemplateInfo where
  name : String
  deriving DecidableEq

/-- Zone row of the zone listing used by `get_zone_by_ip`. -/
structure ZoneSummary where
  zone_name : Option String
  id : Option String
  deriving DecidableEq

/-- Per-device data inside a zone detail's `uuid_dict`. -/
structure DeviceData where
  service : Dict String
  deriving DecidableEq

/-- Zone detail fields read by `ensure_mitigation`. -/
structure ZoneDetails where
  operational_mode : Option String
  zone_service_list : List String
  uuid_dict : Dict DeviceData
  profile_name : Option String
  deriving DecidableEq

/-- Response of the zone-create call; `id` is `resp_create.get("id")`. -/
structure CreateResponse where
  id : Option String
  deriving DecidableEq

/-- Embedding of `get_zone_by_ip` (`mitigation_service.py` lines 58-73):
first zone of the listing whose `zone_name` equals the IP. -/
def get_zone_by_ip (zones : List ZoneSummary) (ip : String) : Option ZoneSummary :=
  zones.find? (fun zone => zone.zone_name == some ip)

/-- Service count computed in the existing-zone branch: length of
`zone_service_list`, falling back to the maximal per-device service count
of `uuid_dict` when it is zero. -/
def services_count_details (details : ZoneDetails) : Nat :=
  let c := details.zone_service_list.length
  if c == 0 then
    details.uuid_dict.foldl (fun acc kv => max acc kv.2.service.length) 0
  else c

/-- Stamping of the target IP into a deep copy of the template's
`zone_payload` (lines 225-228). -/
def stamp_zone_payload (zp : ZonePayload) (ip_address : String) : ZonePayload :=
  { zp with zone_name := some ip_address,
            ip_list := [ip_address],
            input_ips := [ip_address] }

/-- Remote environment seen by one `ensure_mitigation` call: the template
store, the zone listing and detail endpoints, the create and
monitor-enable calls, the notification sink, and the
`NOTIFY_MITIGATION_START` setting. -/
structure MitigationEnv where
  list_templates : Except Exn (List TemplateInfo)
  get_template : String → Except Exn TemplateData
  zone_list : Except Exn (List ZoneSummary)
  get_zone_details : Option String → Except Exn ZoneDetails
  create_zone : ZonePayload → Except Exn CreateResponse
  start_monitoring : Option String → MonitorPayload → Except Exn Unit
  send_notification : Except Exn Unit
  notify_mitigation_start : Bool

/-- Result dict of `ensure_mitigation`. -/
structure MitigationResult where
  status : String
  message : String
  zone_id : Option String
  deriving DecidableEq

/-- Trace of one `ensure_mitigation` call: its result, the create payloads
issued, the monitor-enable calls issued (zone id and payload), and the
event types of the notifications attempted. -/
structure MitigationTrace where
  result : MitigationResult
  create_calls : List ZonePayload
  monitor_calls : List (Option String × MonitorPayload)
  notify_calls : List String
  deriving DecidableEq

/-- The error result built by the top-level `except` clause of
`ensure_mitigation`. -/
def err_result (ip_address msg : String) : MitigationResult :=
  { status := "error",
    message := "Error ensuring mitigation for " ++ ip_address ++ ": " ++ msg,
    zone_id := none }

/-- Message of the exception raised when no template is stored. -/
def no_templates_msg : String :=
  "No templates configured. Create at least one template using POST /api/v1/templates/<name>"

/-- Message of the exception raised when several templates are stored and
none was named: it lists every stored template's name. -/
def multi_templates_msg (templates : List TemplateInfo) : String :=
  "Multiple templates available (" ++ toString templates.length ++
    "). Please specify one: " ++ joinComma (templates.map (fun t => t.name))

/-- Template selection of `ensure_mitigation` (lines 160-174): an explicit
name is used as given; otherwise auto-select requires exactly one stored
template. -/
def resolve_template (env : MitigationEnv) (templateArg : Option String) :
    Except Exn String :=
  match templateArg with
  | some t => .ok t
  | none =>
    match env.list_templates with
    | .error e => .error e
    | .ok templates =>
      match templates with
      | [] => .error no_templates_msg
      | [t] => .ok t.name
      | _ => .error (multi_templates_msg templates)

/-- Model of Python's `str()` rendering of the create response, used in the
`Failed to create zone` message. -/
def create_response_str (resp : CreateResponse) : String :=
  pyStr resp.id

/-- Model of `zone_id[:8]` on an `Optional[str]`: slicing `None` raises a
`TypeError`. -/
def py_slice8 : Option String → Except Exn String
  | none => .error "TypeError: NoneType object is not subscriptable"
  | some s => .ok (s.take 8)

/-- Existing-zone branch of `ensure_mitigation` (lines 180-222): fetch the
zone details, re-apply the template's monitor payload, optionally notify,
and report success without any create call. -/
def ensure_existing (env : MitigationEnv) (ip_address template : String)
    (template_data : TemplateData) (existing : ZoneSummary) : MitigationTrace :=
  let zone_id := existing.id
  match env.get_zone_details zone_id with
  | .error e => ⟨err_result ip_address e, [], [], []⟩
  | .ok details =>
    let current_mode := details.operational_mode
    let monitor_payload := template_data.monitor_payload
    let mcalls := [(zone_id, monitor_payload)]
    let success : MitigationResult :=
      { status := "success",
        message := "Zone " ++ ip_address ++ " already exists (mode: " ++
          pyStr current_mode ++ "). Re-deployed/synced to TPS devices.",
        zone_id := zone_id }
    match env.start_monitoring zone_id monitor_payload with
    | .error e => ⟨err_result ip_address e, [], mcalls, []⟩
    | .ok _ =>
      if env.notify_mitigation_start then
        match py_slice8 zone_id with
        | .error e => ⟨err_result ip_address e, [], mcalls, []⟩
        | .ok _ =>
          match env.send_notification with
          | .error e => ⟨err_result ip_address e, [], mcalls, ["mitigation_start"]⟩
          | .ok _ => ⟨success, [], mcalls, ["mitigation_start"]⟩
      else ⟨success, [], mcalls, []⟩

/-- Create branch of `ensure_mitigation` (lines 224-262): stamp the IP into
the template's zone payload, create the zone, require a truthy `id` in the
response, apply the monitor payload, optionally notify. -/
def ensure_create (env : MitigationEnv) (ip_address template : String)
    (template_data : TemplateData) : MitigationTrace :=
  let zone_payload := stamp_zone_payload template_data.zone_payload ip_address
  match env.create_zone zone_payload with
  | .error e => ⟨err_result ip_address e, [zone_payload], [], []⟩
  | .ok resp_create =>
    match resp_create.id with
    | none =>
      ⟨err_result ip_address ("Failed to create zone: " ++ create_response_str resp_create),
       [zone_payload], [], []⟩
    | some zone_id =>
      if zone_id.isEmpty then
        ⟨err_result ip_address ("Failed to create zone: " ++ create_response_str resp_create),
         [zone_payload], [], []⟩
      else
        let monitor_payload := template_data.monitor_payload
        let mcalls := [(some zone_id, monitor_payload)]
        let success : MitigationResult :=
          { status := "success",
            message := "Started mitigation for " ++ ip_address ++
              ". Created from template " ++ template ++ " + Deployed to TPS.",
            zone_id := some zone_id }
        match env.start_monitoring (some zone_id) monitor_payload with
        | .error e => ⟨err_result ip_address e, [zone_payload], mcalls, []⟩
        | .ok _ =>
          if env.notify_mitigation_start then
            match env.send_notification with
            | .error e =>
                ⟨err_result ip_address e, [zone_payload], mcalls, ["mitigation_start"]⟩
            | .ok _ => ⟨success, [zone_payload], mcalls, ["mitigation_start"]⟩
          else ⟨success, [zone_payload], mcalls, []⟩

/-- Embedding of `ensure_mitigation` (`mitigation_service.py` lines
144-269): resolve and load the template, look up the zone by IP, and take
the existing-zone or create branch; every exception along the way is
captured by the top-level `except` into an error result. -/
def ensure_mitigation (env : MitigationEnv) (ip_address : String)
    (templateArg : Option String) : MitigationTrace :=
  match resolve_template env templateArg with
  | .error e => ⟨err_result ip_address e, [], [], []⟩
  | .ok template =>
    match env.get_template template with
    | .error e => ⟨err_result ip_address e, [], [], []⟩
    | .ok template_data =>
      match env.zone_list with
      | .error e => ⟨err_result ip_address e, [], [], []⟩
      | .ok zones =>
        match get_zone_by_ip zones ip_address with
        | some existing => ensure_existing env ip_address template template_data existing
        | none => ensure_create env ip_address template template_data

/-! ## Helper lemmas about the dict model -/

theorem dict_lookup_eq_none {V : Type} (l : Dict V) (k : String)
    (hk : k ∉ l.map Prod.fst) : l.lookup k = none := by
  induction l with
  | nil => rfl
  | cons kv t ih =>
    obtain ⟨a, b⟩ := kv
    simp only [List.map_cons, List.mem_cons, not_or] at hk
    rw [List.lookup_cons]
    simp [beq_false_of_ne hk.1, ih hk.2]

theorem dict_lookup_of_mem_keys {V : Type} (l : Dict V) (k : String)
    (hk : k ∈ l.map Prod.fst) : ∃ v, l.lookup k = some v := by
  induction l with
  | nil => simp at hk
  | cons kv t ih =>
    obtain ⟨a, b⟩ := kv
    rw [List.lookup_cons]
    by_cases hka : k = a
    · exact ⟨b, by simp [hka]⟩
    · simp only [List.map_cons, List.mem_cons] at hk
      rcases hk with hk | hk
      · exact absurd hk hka
      · simpa [beq_false_of_ne hka] using ih hk

theorem mem_keys_of_dict_lookup {V : Type} (l : Dict V) (k : String) (v : V)
    (h : l.lookup k = some v) : k ∈ l.map Prod.fst := by
  induction l with
  | nil => simp [List.lookup] at h
  | cons kv t ih =>
    obtain ⟨a, b⟩ := kv
    rw [List.lookup_cons] at h
    by_cases hka : k = a
    · simp [hka]
    · simp only [beq_false_of_ne hka] at h
      simp [ih h]

theorem contains_eq_false_of_not_mem (bad : List String) (a : String)
    (hab : a ∉ bad) : bad.contains a = false := by
  cases hcontains : bad.contains a with
  | false => rfl
  | true => exact absurd (List.elem_iff.mp hcontains) hab

theorem dict_lookup_filter_out_mem {V : Type} (bad : List String) (l : Dict V)
    (k : String) (hk : k ∈ bad) :
    (l.filter (fun kv => !(bad.contains kv.1))).lookup k = none := by
  induction l with
  | nil => rfl
  | cons kv t ih =>
    obtain ⟨a, b⟩ := kv
    rw [List.filter_cons]
    by_cases hab : a ∈ bad
    · have hc : (!bad.contains (a, b).1) = false := by
        show (!List.elem a bad) = false
        rw [List.elem_iff.mpr hab]; rfl
      rw [hc, if_neg Bool.false_ne_true]
      exact ih
    · have hka : ¬(k = a) := fun h => hab (h ▸ hk)
      have hc : (!bad.contains (a, b).1) = true := by
        rw [contains_eq_false_of_not_mem bad a hab]; rfl
      rw [hc, if_pos rfl, List.lookup_cons, beq_false_of_ne hka]
      exact ih

theorem dict_lookup_filter_out_not_mem {V : Type} (bad : List String) (l : Dict V)
    (k : String) (hk : k ∉ bad) :
    (l.filter (fun kv => !(bad.contains kv.1))).lookup k = l.lookup k := by
  induction l with
  | nil => rfl
  | cons kv t ih =>
    obtain ⟨a, b⟩ := kv
    rw [List.filter_cons]
    by_cases hab : a ∈ bad
    · have hka : ¬(k = a) := fun h => hk (h ▸ hab)
      have hc : (!bad.contains (a, b).1) = false := by
        show (!List.elem a bad) = false
        rw [List.elem_iff.mpr hab]; rfl
      rw [hc, if_neg Bool.false_ne_true, List.lookup_cons, beq_false_of_ne hka]
      exact ih
    · have hc : (!bad.contains (a, b).1) = true := by
        rw [contains_eq_false_of_not_mem bad a hab]; rfl
      rw [hc, if_pos rfl, List.lookup_cons, List.lookup_cons]
      cases k == a
      · exact ih
      · rfl

theorem dictEqb_iff {V : Type} [DecidableEq V] (d1 d2 : Dict V) :
    dictEqb d1 d2 = true ↔ ∀ k, d1.lookup k = d2.lookup k := by
  unfold dictEqb
  simp only [Bool.and_eq_true, decide_eq_true_eq]
  constructor
  · rintro ⟨h1, h2⟩ k
    by_cases hk1 : k ∈ d1.map Prod.fst
    · exact h1 k hk1
    · by_cases hk2 : k ∈ d2.map Prod.fst
      · exact h2 k hk2
      · rw [dict_lookup_eq_none d1 k hk1, dict_lookup_eq_none d2 k hk2]
  · intro h
    exact ⟨fun k _ => h k, fun k _ => h k⟩

/-! ## Helper lemmas about substring containment -/

theorem strContains_append_left (s t sub : String) (h : strContains t sub) :
    strContains (s ++ t) sub := by
  obtain ⟨pre, post, hpre⟩ := h
  exact ⟨s ++ pre, post, by rw [hpre, String.append_assoc]⟩

theorem joinComma_strContains :
    ∀ (names : List String) (n : String), n ∈ names → strContains (joinComma names) n
  | [], n, hn => absurd hn (List.not_mem_nil n)
  | [x], n, hn => by
      rcases List.mem_singleton.mp hn with rfl
      exact ⟨"", "", by simp [joinComma, String.append_empty, String.empty_append]⟩
  | x :: y :: ys, n, hn => by
      rcases List.mem_cons.mp hn with rfl | hmem
      · refine ⟨"", ", " ++ joinComma (y :: ys), ?_⟩
        simp [joinComma, String.empty_append, String.append_assoc]
      · exact strContains_append_left _ _ _ (joinComma_strContains (y :: ys) n hmem)

theorem normalize_lookup_mem {V : Type} (zone : Dict V) (k : String)
    (hk : k ∈ volatile_fields) :
    (normalize_zone_for_comparison zone).lookup k = none :=
  dict_lookup_filter_out_mem volatile_fields zone k hk

theorem normalize_lookup_not_mem {V : Type} (zone : Dict V) (k : String)
    (hk : k ∉ volatile_fields) :
    (normalize_zone_for_comparison zone).lookup k = zone.lookup k :=
  dict_lookup_filter_out_not_mem volatile_fields zone k hk

theorem four_subset_volatile :
    ∀ k ∈ (["created_time", "modified_time", "stats", "counters"] : List String),
      k ∈ volatile_fields := by
  intro k hk
  fin_cases hk <;> decide

/-! ## Claim C4 -/

/-- C4 (amended): for every snapshot dict, `normalize_zone_for_comparison`
removes the four keys `created_time`, `modified_time`, `stats`, `counters`
— and, beyond the claim, every key of the nine-entry volatile-field list —
and maps every key outside that list to its unchanged value. -/
theorem C4_normalize_volatile (V : Type) (zone : Dict V) :
    (∀ k ∈ (["created_time", "modified_time", "stats", "counters"] : List String),
       (normalize_zone_for_comparison zone).lookup k = none) ∧
    (∀ k ∈ volatile_fields, (normalize_zone_for_comparison zone).lookup k = none) ∧
    (∀ k ∉ volatile_fields, (normalize_zone_for_comparison zone).lookup k = zone.lookup k) :=
  ⟨fun k hk => dict_lookup_filter_out_mem volatile_fields zone k (four_subset_volatile k hk),
   fun k hk => dict_lookup_filter_out_mem volatile_fields zone k hk,
   fun k hk => dict_lookup_filter_out_not_mem volatile_fields zone k hk⟩

/-- Witness for C4: evaluation at a concrete snapshot. -/
theorem C4_normalize_volatile_witness :
    (normalize_zone_for_comparison
      [("created_time", 1), ("modified_time", 2), ("stats", 3), ("counters", 4),
       ("zone_name", 5)]).lookup "stats" = none ∧
    (normalize_zone_for_comparison
      [("created_time", 1), ("modified_time", 2), ("stats", 3), ("counters", 4),
       ("zone_name", 5)]).lookup "zone_name" = some 5 :=
  ⟨(C4_normalize_volatile Nat _).1 "stats" (by decide),
   ((C4_normalize_volatile Nat
      [("created_time", 1), ("modified_time", 2), ("stats", 3), ("counters", 4),
       ("zone_name", 5)]).2.2 "zone_name" (by decide)).trans (by decide)⟩

/-- Counterexample for C4 as stated: the input holds the four named keys
plus the key `modified`, which is not one of the four, yet the normalized
dict does not map `modified` to its input value — the code also strips
`created`, `modified`, `last_modified`, `updated_at`, `runtime_stats`. -/
theorem C4_counterexample :
    (normalize_zone_for_comparison
      [("created_time", 1), ("modified_time", 2), ("stats", 3), ("counters", 4),
       ("modified", 5)]).lookup "modified" = none ∧
    ([("created_time", 1), ("modified_time", 2), ("stats", 3), ("counters", 4),
       ("modified", (5 : Nat))]).lookup "modified" = some 5 ∧
    "modified" ∉ (["created_time", "modified_time", "stats", "counters"] : List String) := by
  refine ⟨by decide, by decide, by decide⟩

/-! ## Claim C5 -/

/-- C5: `detect_zone_changes` returns `new = current ids minus known ids`,
`deleted = known ids minus current ids`, and `modified = exactly the common
ids whose normalized snapshots differ`; the three sets are pairwise
disjoint; snapshots agreeing outside the four named volatile keys are never
reported as modified; and for `known = [(A, old)]`, `current = [(B, new)]`
with `A ≠ B` the result is `({B}, {A}, ∅)`. -/
theorem C5_detect_changes {V : Type} [DecidableEq V]
    (known_zones : Dict (KnownEntry V)) (current_zones : Dict (Dict V)) :
    (detect_zone_changes known_zones current_zones).1 =
      (current_zones.map Prod.fst).toFinset \ (known_zones.map Prod.fst).toFinset ∧
    (detect_zone_changes known_zones current_zones).2.1 =
      (known_zones.map Prod.fst).toFinset \ (current_zones.map Prod.fst).toFinset ∧
    Disjoint (detect_zone_changes known_zones current_zones).1
      (detect_zone_changes known_zones current_zones).2.1 ∧
    Disjoint (detect_zone_changes known_zones current_zones).1
      (detect_zone_changes known_zones current_zones).2.2 ∧
    Disjoint (detect_zone_changes known_zones current_zones).2.1
      (detect_zone_changes known_zones current_zones).2.2 ∧
    (∀ zone_id, zone_id ∈ (detect_zone_changes known_zones current_zones).2.2 ↔
      ∃ entry cur, known_zones.lookup zone_id = some entry ∧
        current_zones.lookup zone_id = some cur ∧
        dictEqb (normalize_zone_for_comparison entry.snapshot)
          (normalize_zone_for_comparison cur) = false) ∧
    (∀ zone_id entry cur, known_zones.lookup zone_id = some entry →
      current_zones.lookup zone_id = some cur →
      (∀ k, k ∉ (["created_time", "modified_time", "stats", "counters"] : List String) →
        entry.snapshot.lookup k = cur.lookup k) →
      zone_id ∉ (detect_zone_changes known_zones current_zones).2.2) ∧
    (∀ (A B : String) (entry : KnownEntry V) (snap : Dict V), A ≠ B →
      detect_zone_changes [(A, entry)] [(B, snap)] =
        ({B}, {A}, (∅ : Finset String))) := by
  have hmem : ∀ zone_id, zone_id ∈ (detect_zone_changes known_zones current_zones).2.2 ↔
      ∃ entry cur, known_zones.lookup zone_id = some entry ∧
        current_zones.lookup zone_id = some cur ∧
        dictEqb (normalize_zone_for_comparison entry.snapshot)
          (normalize_zone_for_comparison cur) = false := by
    intro zone_id
    show zone_id ∈ Finset.filter _ _ ↔ _
    rw [Finset.mem_filter]
    constructor
    · rintro ⟨hmm, hp⟩
      rw [Finset.mem_inter, List.mem_toFinset, List.mem_toFinset] at hmm
      obtain ⟨entry, hentry⟩ := dict_lookup_of_mem_keys known_zones zone_id hmm.2
      obtain ⟨cur, hcur⟩ := dict_lookup_of_mem_keys current_zones zone_id hmm.1
      refine ⟨entry, cur, hentry, hcur, ?_⟩
      unfold zone_modified_check at hp
      rw [hentry, hcur] at hp
      simpa using hp
    · rintro ⟨entry, cur, hentry, hcur, hne⟩
      constructor
      · rw [Finset.mem_inter, List.mem_toFinset, List.mem_toFinset]
        exact ⟨mem_keys_of_dict_lookup current_zones zone_id cur hcur,
               mem_keys_of_dict_lookup known_zones zone_id entry hentry⟩
      · unfold zone_modified_check
        rw [hentry, hcur]
        show (!dictEqb (normalize_zone_for_comparison entry.snapshot)
              (normalize_zone_for_comparison cur)) = true
        rw [hne]
        rfl
  refine ⟨rfl, rfl, ?_, ?_, ?_, hmem, ?_, ?_⟩
  · rw [Finset.disjoint_left]
    intro a ha hb
    have ha' : a ∉ (known_zones.map Prod.fst).toFinset := (Finset.mem_sdiff.mp ha).2
    have hb' : a ∈ (known_zones.map Prod.fst).toFinset := (Finset.mem_sdiff.mp hb).1
    exact ha' hb'
  · rw [Finset.disjoint_left]
    intro a ha hb
    have ha' : a ∉ (known_zones.map Prod.fst).toFinset := (Finset.mem_sdiff.mp ha).2
    obtain ⟨entry, cur, hentry, _, _⟩ := (hmem a).mp hb
    exact ha' (List.mem_toFinset.mpr (mem_keys_of_dict_lookup known_zones a entry hentry))
  · rw [Finset.disjoint_left]
    intro a ha hb
    have ha' : a ∉ (current_zones.map Prod.fst).toFinset := (Finset.mem_sdiff.mp ha).2
    obtain ⟨entry, cur, _, hcur, _⟩ := (hmem a).mp hb
    exact ha' (List.mem_toFinset.mpr (mem_keys_of_dict_lookup current_zones a cur hcur))
  · intro zone_id entry cur hentry hcur hagree hm
    obtain ⟨entry', cur', hentry', hcur', hne⟩ := (hmem zone_id).mp hm
    rw [hentry] at hentry'
    rw [hcur] at hcur'
    obtain rfl : entry = entry' := by injection hentry'
    obtain rfl : cur = cur' := by injection hcur'
    have heq : dictEqb (normalize_zone_for_comparison entry.snapshot)
        (normalize_zone_for_comparison cur) = true := by
      rw [dictEqb_iff]
      intro k
      by_cases hkvol : k ∈ volatile_fields
      · rw [normalize_lookup_mem entry.snapshot k hkvol,
            normalize_lookup_mem cur k hkvol]
      · have hk4 : k ∉ (["created_time", "modified_time", "stats", "counters"] : List String) :=
          fun h4 => hkvol (four_subset_volatile k h4)
        rw [normalize_lookup_not_mem entry.snapshot k hkvol,
            normalize_lookup_not_mem cur k hkvol]
        exact hagree k hk4
    rw [heq] at hne
    cases hne
  · intro A B entry snap hne
    simp only [detect_zone_changes, List.map_cons, List.map_nil, List.toFinset_cons,
      List.toFinset_nil, insert_emptyc_eq]
    rw [Finset.sdiff_singleton_eq_self (Finset.not_mem_singleton.mpr hne),
      Finset.sdiff_singleton_eq_self (Finset.not_mem_singleton.mpr (Ne.symm hne)),
      Finset.singleton_inter_of_not_mem (Finset.not_mem_singleton.mpr (Ne.symm hne)),
      Finset.filter_empty]

/-- Witness for C5: the `A`/`B` scenario evaluated at concrete maps, via the
theorem's final conjunct. -/
theorem C5_detect_changes_witness :
    detect_zone_changes [("zoneA", (⟨[("stats", 1)], 0⟩ : KnownEntry Nat))]
      [("zoneB", [("stats", 2)])] = ({"zoneB"}, {"zoneA"}, (∅ : Finset String)) :=
  (C5_detect_changes [("zoneA", (⟨[("stats", 1)], 0⟩ : KnownEntry Nat))]
      [("zoneB", [("stats", 2)])]).2.2.2.2.2.2.2
    "zoneA" "zoneB" ⟨[("stats", 1)], 0⟩ [("stats", 2)] (by decide)

/-! ## Claim C6 -/

theorem scan_audit_events_ne_own (own_user target_type zone_id : String) :
    ∀ (events : List AuditEvent) (user : String),
      scan_audit_events own_user target_type zone_id events = some user →
      user ≠ own_user := by
  intro events
  induction events with
  | nil =>
    intro user h
    exact absurd h (by simp [scan_audit_events])
  | cons e rest ih =>
    intro user h
    unfold scan_audit_events at h
    rcases e with ⟨etype, edata⟩
    cases htype : etype == some target_type with
    | false =>
      rw [htype] at h
      cases edata <;> exact ih user h
    | true =>
      rw [htype] at h
      cases edata with
      | empty => exact ih user h
      | malformed => exact ih user h
      | parsed event_zone_id user_id =>
        dsimp only at h
        by_cases hguard : (event_zone_id == some zone_id && pyTruthyStr user_id) = true
        · rw [if_pos hguard] at h
          by_cases hown : (user_id == some own_user) = true
          · rw [if_pos hown] at h
            cases h
          · rw [if_neg hown] at h
            intro hcontra
            apply hown
            rw [h, hcontra]
            exact beq_self_eq_true (some own_user)
        · rw [if_neg hguard] at h
          exact ih user h

theorem get_zone_change_user_ne_own (own_user : String)
    (audit : Except Exn AuditResponse) (zone_id event_type : String) :
    ∀ user, get_zone_change_user own_user audit zone_id event_type = some user →
      user ≠ own_user := by
  intro user h
  unfold get_zone_change_user at h
  cases hmap : event_type_map.lookup event_type with
  | none => rw [hmap] at h; cases h
  | some target =>
    rw [hmap] at h
    cases audit with
    | error e => cases h
    | ok resp =>
      dsimp only at h
      cases hobj : resp.object_list with
      | none => rw [hobj] at h; cases h
      | some events =>
        rw [hobj] at h
        exact scan_audit_events_ne_own own_user target zone_id events user h

/-- C6 (amended): every change whose audit lookup yields `none` (no
matching entry, or an entry attributed to the system's own account) is
suppressed by all three notifiers without raising; the attribution never
returns the system's own account; and when the category's feature flag is
enabled, an attributed external actor makes the category-specific event be
emitted carrying that actor. -/
theorem C6_change_attribution (cfg : ZoneChangeSettings)
    (audit : Except Exn AuditResponse) (zone : ZoneInfo) (zone_id : String)
    (old_zone new_zone : ZoneInfo) :
    (get_zone_change_user cfg.a10_username audit (zone.id.getD "Unknown") "created" = none →
       notify_zone_created cfg audit zone = none) ∧
    (get_zone_change_user cfg.a10_username audit zone_id "updated" = none →
       notify_zone_modified cfg audit zone_id old_zone new_zone = none) ∧
    (get_zone_change_user cfg.a10_username audit zone_id "deleted" = none →
       notify_zone_deleted cfg audit zone_id old_zone = none) ∧
    (∀ event_type user,
       get_zone_change_user cfg.a10_username audit zone_id event_type = some user →
       user ≠ cfg.a10_username) ∧
    (∀ user, cfg.notify_zone_created = true →
       get_zone_change_user cfg.a10_username audit (zone.id.getD "Unknown") "created" = some user →
       notify_zone_created cfg audit zone = some ⟨"Zone Created", "zone_created", user⟩) ∧
    (∀ user, cfg.notify_zone_modified = true →
       get_zone_change_user cfg.a10_username audit zone_id "updated" = some user →
       notify_zone_modified cfg audit zone_id old_zone new_zone =
         some ⟨"Zone Modified", "zone_modified", user⟩) ∧
    (∀ user, cfg.notify_zone_deleted = true →
       get_zone_change_user cfg.a10_username audit zone_id "deleted" = some user →
       notify_zone_deleted cfg audit zone_id old_zone =
         some ⟨"Zone Deleted", "zone_deleted", user⟩) := by
  refine ⟨?_, ?_, ?_, ?_, ?_, ?_, ?_⟩
  · intro h
    unfold notify_zone_created
    cases hflag : cfg.notify_zone_created with
    | false => rfl
    | true => simp only [Bool.not_true, Bool.false_eq_true, if_false, h]
  · intro h
    unfold notify_zone_modified
    cases hflag : cfg.notify_zone_modified with
    | false => rfl
    | true => simp only [Bool.not_true, Bool.false_eq_true, if_false, h]
  · intro h
    unfold notify_zone_deleted
    cases hflag : cfg.notify_zone_deleted with
    | false => rfl
    | true => simp only [Bool.not_true, Bool.false_eq_true, if_false, h]
  · intro event_type user h
    exact get_zone_change_user_ne_own cfg.a10_username audit zone_id event_type user h
  · intro user hflag h
    unfold notify_zone_created
    simp only [hflag, Bool.not_true, Bool.false_eq_true, if_false, h]
  · intro user hflag h
    unfold notify_zone_modified
    simp only [hflag, Bool.not_true, Bool.false_eq_true, if_false, h]
  · intro user hflag h
    unfold notify_zone_deleted
    simp only [hflag, Bool.not_true, Bool.false_eq_true, if_false, h]

/-- Concrete audit listing holding one zone-created event attributed to an
external user. -/
def c6_audit : Except Exn AuditResponse :=
  .ok ⟨some [{ type := some "a10.agalaxy.tps.ddos.zone.created",
               event_data := .parsed (some "zone-1") (some "mallory") }]⟩

/-- Concrete zone row for the C6 scenarios. -/
def c6_zone : ZoneInfo :=
  { id := some "zone-1", zone_name := some "203.0.113.7",
    operational_mode := some "monitor", profile_name := some "default",
    zone_services := [] }

/-- Settings with every zone-change notification category enabled. -/
def c6_cfg_on : ZoneChangeSettings :=
  { notify_zone_created := true, notify_zone_modified := true,
    notify_zone_deleted := true, a10_username := "guardian-api" }

/-- Settings with every zone-change notification category disabled. -/
def c6_cfg_off : ZoneChangeSettings :=
  { notify_zone_created := false, notify_zone_modified := false,
    notify_zone_deleted := false, a10_username := "guardian-api" }

/-- Witness for C6: with the flag enabled an external actor is notified;
with an empty audit log the notification is suppressed. -/
theorem C6_change_attribution_witness :
    notify_zone_created c6_cfg_on c6_audit c6_zone =
      some ⟨"Zone Created", "zone_created", "mallory"⟩ ∧
    notify_zone_modified c6_cfg_on (.ok ⟨some []⟩) "zone-1" c6_zone c6_zone = none :=
  ⟨(C6_change_attribution c6_cfg_on c6_audit c6_zone "zone-1" c6_zone c6_zone).2.2.2.2.1
      "mallory" rfl (by decide),
   (C6_change_attribution c6_cfg_on (.ok ⟨some []⟩) c6_zone "zone-1" c6_zone c6_zone).2.1
      (by decide)⟩

/-- Counterexample for C6 as stated: the audit lookup attributes the change
to the external user `mallory` (neither self-caused nor unmatched), yet no
notification is emitted, because `NOTIFY_ZONE_CREATED` is disabled — the
claim omits the feature-flag gate. -/
theorem C6_counterexample :
    get_zone_change_user "guardian-api" c6_audit "zone-1" "created" = some "mallory" ∧
    notify_zone_created c6_cfg_off c6_audit c6_zone = none := by
  exact ⟨by decide, rfl⟩

/-! ## Claim C7 -/

/-- C7 (amended): when the login page loads with a CSRF token and the POST
completes with a status below 400, `login` succeeds iff the final URL moved
away from the login page (differs from the login URL and does not contain
`login`) or, failing that, the body lacks the `id_username` marker; the
cookie set is persisted to the session cache exactly when the final URL
moved away — a fallback success is returned without persisting. -/
theorem C7_login_success (env : LoginEnv) (page : LoginPage) (post : LoginPost)
    (hpage : env.get_login_page = .ok page) (hcsrf : page.csrf_token.isSome = true)
    (hpost : env.post_login = .ok post) (hstatus : post.status < 400) :
    ((login env).result = some post.cookies ↔
       (login_redirected_away env.login_url post ||
        !containsSubstr post.text "id_username") = true) ∧
    ((login env).saved =
       if login_redirected_away env.login_url post then [post.cookies] else []) := by
  obtain ⟨tok, htok⟩ := Option.isSome_iff_exists.mp hcsrf
  have hnot : ¬(400 ≤ post.status) := Nat.not_le.mpr hstatus
  unfold login
  rw [hpage]
  dsimp only
  rw [htok]
  dsimp only
  rw [hpost]
  dsimp only
  rw [if_neg hnot]
  cases hred : login_redirected_away env.login_url post with
  | true =>
    rw [if_pos rfl]
    exact ⟨by simp, rfl⟩
  | false =>
    rw [if_neg Bool.false_ne_true]
    cases hmark : containsSubstr post.text "id_username" with
    | true =>
      rw [if_pos rfl]
      constructor
      · simp
      · rfl
    | false =>
      rw [if_neg Bool.false_ne_true]
      exact ⟨by simp, rfl⟩

/-- Login POST that lands back on the login URL with a body that no longer
contains the login-page marker. -/
def c7_post : LoginPost :=
  { status := 200, url := "https://a10.example.com/auth/login/",
    text := "<html>Welcome to the dashboard</html>",
    cookies := [("sessionid", "abc123")] }

/-- Login environment for the C7 scenarios. -/
def c7_env : LoginEnv :=
  { login_url := "https://a10.example.com/auth/login/",
    get_login_page := .ok { csrf_token := some "tok-1", region := none },
    post_login := .ok c7_post }

/-- Witness for C7: evaluation of the theorem at the concrete environment. -/
theorem C7_login_success_witness :
    ((login c7_env).result = some c7_post.cookies ↔
       (login_redirected_away c7_env.login_url c7_post ||
        !containsSubstr c7_post.text "id_username") = true) ∧
    ((login c7_env).saved =
       if login_redirected_away c7_env.login_url c7_post then [c7_post.cookies] else []) :=
  C7_login_success c7_env { csrf_token := some "tok-1", region := none } c7_post
    rfl rfl rfl (by decide)

/-- Counterexample for C7 as stated: the POST's final URL equals the login
URL (so the claimed success condition is false), yet `login` succeeds and
returns the session — and the cookie set is not persisted on this success,
contradicting both halves of the claim. -/
theorem C7_counterexample :
    (login c7_env).result = some [("sessionid", "abc123")] ∧
    (login c7_env).saved = [] ∧
    c7_post.url = c7_env.login_url ∧
    containsSubstr c7_post.text "id_username" = false := by
  refine ⟨by decide, by decide, rfl, by decide⟩

/-! ## Claim C8 -/

/-- C8 (amended): the validation probe judges a status-200 response valid
without inspecting its body; a 302 redirect whose Location header contains
`login` is invalid; any other response is invalid exactly when its URL
contains `auth/login`; a network error is invalid; and a cached session
that validates is returned as-is, skipping login. -/
theorem C8_validate_session (r : ProbeResponse) (env : AuthEnv) (s : Dict String) :
    (r.status = 200 → validate_session (.resp r) = true) ∧
    (r.status = 302 → containsSubstr r.location "login" = true →
       validate_session (.resp r) = false) ∧
    (r.status ≠ 200 → ¬(r.status = 302 ∧ containsSubstr r.location "login" = true) →
       validate_session (.resp r) = !containsSubstr r.url "auth/login") ∧
    validate_session .netError = false ∧
    (env.cached = some s → validate_session env.probe = true →
       get_authenticated_session env = ⟨some s, false⟩) := by
  refine ⟨?_, ?_, ?_, rfl, ?_⟩
  · intro h200
    unfold validate_session
    dsimp only
    rw [if_pos (by rw [h200]; rfl)]
  · intro h302 hloc
    unfold validate_session
    dsimp only
    rw [if_neg (by rw [h302]; exact Bool.false_ne_true),
        if_pos (by rw [h302, hloc]; rfl)]
  · intro hn200 hnred
    unfold validate_session
    dsimp only
    rw [if_neg (fun h => hn200 (by simpa using (beq_iff_eq.mp h)))]
    rw [if_neg ?hred]
    case hred =>
      intro h
      rw [Bool.and_eq_true] at h
      rcases h with ⟨h1, h2⟩
      exact hnred ⟨by simpa using (beq_iff_eq.mp h1), h2⟩
    cases hurl : containsSubstr r.url "auth/login" with
    | true => rw [if_pos rfl]; rfl
    | false => rw [if_neg Bool.false_ne_true]; rfl
  · intro hc hv
    unfold get_authenticated_session
    rw [hc]
    dsimp only
    rw [hv]
    simp

/-- Probe response whose status is 200 but whose body is still the login
page. -/
def c8_probe : ProbeResponse :=
  { status := 200, location := "",
    url := "https://a10.example.com/dashboard/",
    body := "<input name=id_username> login form" }

/-- Authentication environment holding a cached session whose probe is
`c8_probe`. -/
def c8_env : AuthEnv :=
  { cached := some [("sessionid", "cached-1")],
    probe := .resp c8_probe,
    login_env := c7_env }

/-- Probe response redirecting to the login page. -/
def c8_redirect_probe : ProbeResponse :=
  { status := 302, location := "/auth/login/",
    url := "https://a10.example.com/dashboard/", body := "" }

/-- Witness for C8: evaluation of the theorem's conjuncts at concrete
inputs. -/
theorem C8_validate_session_witness :
    validate_session (.resp c8_redirect_probe) = false ∧
    get_authenticated_session c8_env = ⟨some [("sessionid", "cached-1")], false⟩ :=
  ⟨(C8_validate_session c8_redirect_probe c8_env
      [("sessionid", "cached-1")]).2.1 rfl (by decide),
   (C8_validate_session c8_probe c8_env [("sessionid", "cached-1")]).2.2.2.2
      rfl (by decide)⟩

/-- Counterexample for C8 as stated: a status-200 probe response whose body
still contains the login-page marker is judged valid — the code returns
`True` on any 200 and never reads the body. -/
theorem C8_counterexample :
    validate_session (.resp c8_probe) = true ∧
    containsSubstr c8_probe.body "id_username" = true := by
  exact ⟨by decide, by decide⟩

/-! ## Claim C1 -/

/-- C1: when the first transport response reports 403 and the replayed
response is a 200 whose final URL is not the login page, the call returns
the parsed body of the second response, the transport is invoked exactly
twice — and never more than twice on any call — and for state-changing
verbs the `X-Csrftoken` header of each invocation is the respective
session's token, so with per-session tokens the header differs between the
two invocations. -/
theorem C1_session_expiry_replay (state_changing : Bool) (s1 s2 : A10Session)
    (rest : List A10Session) (transport : Nat → HttpResponse)
    (r1 r2 : HttpResponse)
    (ht0 : transport 0 = r1) (ht1 : transport 1 = r2)
    (h403 : r1.status = 403) (h200 : r2.status = 200)
    (hurl : containsSubstr r2.url "login" = false) :
    (run_request state_changing (some s1) (s2 :: rest) transport).outcome =
      .ok r2.body ∧
    (run_request state_changing (some s1) (s2 :: rest) transport).sent.length = 2 ∧
    (∀ t1 t2 : String, state_changing = true →
       s1.csrftoken = some t1 → s2.csrftoken = some t2 →
       (run_request state_changing (some s1) (s2 :: rest) transport).sent =
         [some t1, some t2]) ∧
    (∀ t1 t2 : String, state_changing = true →
       s1.csrftoken = some t1 → s2.csrftoken = some t2 → t1 ≠ t2 →
       (run_request state_changing (some s1) (s2 :: rest) transport).sent[0]? ≠
       (run_request state_changing (some s1) (s2 :: rest) transport).sent[1]?) := by
  have hexp : is_session_expired r1 = true := by
    unfold is_session_expired
    rw [h403]
    rfl
  have hfin : finalize_response r2 = .ok r2.body := by
    unfold finalize_response
    rw [h200]
    rfl
  have hrun : run_request state_changing (some s1) (s2 :: rest) transport =
      ⟨finalize_response r2,
       [if state_changing then inject_csrf_token s1 none else none,
        if state_changing then
          inject_csrf_token s2 (if state_changing then inject_csrf_token s1 none else none)
        else (if state_changing then inject_csrf_token s1 none else none)]⟩ := by
    unfold run_request run_request_body
    dsimp only
    rw [ht0, ht1, hexp]
    rw [if_pos rfl]
  refine ⟨?_, ?_, ?_, ?_⟩
  · rw [hrun, hfin]
  · rw [hrun]
    rfl
  · intro t1 t2 hsc h1 h2
    rw [hrun, hsc]
    simp only [if_pos rfl, if_true]
    unfold inject_csrf_token
    rw [h1, h2]
  · intro t1 t2 hsc h1 h2 hne
    rw [hrun, hsc]
    simp only [if_true]
    unfold inject_csrf_token
    rw [h1, h2]
    simpa using fun hcontra => hne hcontra

/-- Transport script for the C1 witness: a 403 on the first invocation, a
200 with a non-login URL on the replay. -/
def c1_transport : Nat → HttpResponse :=
  fun i =>
    if i = 0 then { status := 403, url := "https://a10.example.com/tps/zones", body := "" }
    else { status := 200, url := "https://a10.example.com/tps/zones", body := "zone-list" }

/-- Witness for C1: evaluation at concrete sessions and responses. -/
theorem C1_session_expiry_replay_witness :
    (run_request true (some ⟨some "tokA"⟩) [⟨some "tokB"⟩] c1_transport).outcome =
      .ok "zone-list" ∧
    (run_request true (some ⟨some "tokA"⟩) [⟨some "tokB"⟩] c1_transport).sent =
      [some "tokA", some "tokB"] := by
  have h := C1_session_expiry_replay true ⟨some "tokA"⟩ ⟨some "tokB"⟩ [] c1_transport
    { status := 403, url := "https://a10.example.com/tps/zones", body := "" }
    { status := 200, url := "https://a10.example.com/tps/zones", body := "zone-list" }
    rfl rfl rfl rfl (by decide)
  exact ⟨h.1, h.2.2.1 "tokA" "tokB" rfl rfl rfl⟩

/-! ## Shape lemmas for the reconciler -/

theorem ensure_existing_shape (env : MitigationEnv) (ip_address template : String)
    (template_data : TemplateData) (existing : ZoneSummary) :
    ((∃ e, (ensure_existing env ip_address template template_data existing).result =
        err_result ip_address e) ∨
      (ensure_existing env ip_address template template_data existing).result.status =
        "success") ∧
    (ensure_existing env ip_address template template_data existing).create_calls = [] ∧
    (∀ c ∈ (ensure_existing env ip_address template template_data existing).monitor_calls,
       c = (existing.id, template_data.monitor_payload)) := by
  unfold ensure_existing
  dsimp only
  cases hdet : env.get_zone_details existing.id with
  | error e =>
    exact ⟨Or.inl ⟨e, rfl⟩, rfl, fun c hc => absurd hc (List.not_mem_nil c)⟩
  | ok details =>
    dsimp only
    cases hmon : env.start_monitoring existing.id template_data.monitor_payload with
    | error e =>
      exact ⟨Or.inl ⟨e, rfl⟩, rfl, fun c hc => List.mem_singleton.mp hc⟩
    | ok u =>
      dsimp only
      cases hflag : env.notify_mitigation_start with
      | false =>
        rw [if_neg Bool.false_ne_true]
        exact ⟨Or.inr rfl, rfl, fun c hc => List.mem_singleton.mp hc⟩
      | true =>
        rw [if_pos rfl]
        cases hslice : py_slice8 existing.id with
        | error e =>
          exact ⟨Or.inl ⟨e, rfl⟩, rfl, fun c hc => List.mem_singleton.mp hc⟩
        | ok sliced =>
          dsimp only
          cases hnotif : env.send_notification with
          | error e =>
            exact ⟨Or.inl ⟨e, rfl⟩, rfl, fun c hc => List.mem_singleton.mp hc⟩
          | ok v =>
            exact ⟨Or.inr rfl, rfl, fun c hc => List.mem_singleton.mp hc⟩

theorem ensure_create_shape (env : MitigationEnv) (ip_address template : String)
    (template_data : TemplateData) :
    (∃ e, (ensure_create env ip_address template template_data).result =
       err_result ip_address e) ∨
    (ensure_create env ip_address template template_data).result.status = "success" := by
  unfold ensure_create
  dsimp only
  cases hc : env.create_zone (stamp_zone_payload template_data.zone_payload ip_address) with
  | error e => exact Or.inl ⟨e, rfl⟩
  | ok resp_create =>
    dsimp only
    cases hid : resp_create.id with
    | none => exact Or.inl ⟨_, rfl⟩
    | some zone_id =>
      dsimp only
      cases hempty : zone_id.isEmpty with
      | true =>
        rw [if_pos rfl]
        exact Or.inl ⟨_, rfl⟩
      | false =>
        rw [if_neg Bool.false_ne_true]
        cases hmon : env.start_monitoring (some zone_id) template_data.monitor_payload with
        | error e => exact Or.inl ⟨e, rfl⟩
        | ok u =>
          dsimp only
          cases hflag : env.notify_mitigation_start with
          | false =>
            rw [if_neg Bool.false_ne_true]
            exact Or.inr rfl
          | true =>
            rw [if_pos rfl]
            cases hnotif : env.send_notification with
            | error e => exact Or.inl ⟨e, rfl⟩
            | ok v => exact Or.inr rfl

theorem ensure_mitigation_shape (env : MitigationEnv) (ip_address : String)
    (templateArg : Option String) :
    (∃ e, (ensure_mitigation env ip_address templateArg).result =
       err_result ip_address e) ∨
    (ensure_mitigation env ip_address templateArg).result.status = "success" := by
  unfold ensure_mitigation
  cases hres : resolve_template env templateArg with
  | error e => exact Or.inl ⟨e, rfl⟩
  | ok template =>
    dsimp only
    cases htd : env.get_template template with
    | error e => exact Or.inl ⟨e, rfl⟩
    | ok template_data =>
      dsimp only
      cases hzl : env.zone_list with
      | error e => exact Or.inl ⟨e, rfl⟩
      | ok zones =>
        dsimp only
        cases hz : get_zone_by_ip zones ip_address with
        | some existing =>
          exact (ensure_existing_shape env ip_address template template_data existing).1
        | none => exact ensure_create_shape env ip_address template template_data

/-! ## Claim C3 -/

/-- C3: `ensure_mitigation` never raises: for every environment, IP and
template argument its result's status is `success` or `error`, and every
error result's message carries the captured failure wrapped in the
top-level error format. -/
theorem C3_never_throws (env : MitigationEnv) (ip_address : String)
    (templateArg : Option String) :
    (ensure_mitigation env ip_address templateArg).result.status = "success" ∨
    ((ensure_mitigation env ip_address templateArg).result.status = "error" ∧
     ∃ e, (ensure_mitigation env ip_address templateArg).result.message =
       "Error ensuring mitigation for " ++ ip_address ++ ": " ++ e) := by
  rcases ensure_mitigation_shape env ip_address templateArg with ⟨e, he⟩ | hs
  · right
    rw [he]
    exact ⟨rfl, e, rfl⟩
  · left
    exact hs

/-! ## Claim C10 -/

/-- C10: every error result of `ensure_mitigation` carries `zone_id =
none`, even when the zone-create call already succeeded before a later
step failed. -/
theorem C10_error_zone_id_none (env : MitigationEnv) (ip_address : String)
    (templateArg : Option String)
    (h : (ensure_mitigation env ip_address templateArg).result.status = "error") :
    (ensure_mitigation env ip_address templateArg).result.zone_id = none := by
  rcases ensure_mitigation_shape env ip_address templateArg with ⟨e, he⟩ | hs
  · rw [he]
    rfl
  · exact absurd (hs.symm.trans h) (by decide)

/-- Template data used by the concrete reconciler environments. -/
def mit_template_data : TemplateData :=
  { zone_payload :=
      { zone_name := none, ip_list := [], input_ips := [],
        port := some { zone_service_list := ["dns", "http"] },
        profile_name := some "default-profile" },
    monitor_payload := [("mode", "monitor")] }

/-- Environment in which the zone-create call succeeds but the
monitor/deploy call fails. -/
def c10_env : MitigationEnv :=
  { list_templates := .ok [⟨"default"⟩],
    get_template := fun _ => .ok mit_template_data,
    zone_list := .ok [],
    get_zone_details := fun _ => .error "unused",
    create_zone := fun _ => .ok ⟨some "zone-9001"⟩,
    start_monitoring := fun _ _ => .error "HTTPError: 500 Server Error",
    send_notification := .ok (),
    notify_mitigation_start := true }

/-- Witness for C10: the create call succeeded (a create payload was
issued and accepted) yet the later monitor failure yields an error result
whose `zone_id` is `none`. -/
theorem C10_error_zone_id_none_witness :
    (ensure_mitigation c10_env "198.51.100.9" none).result.status = "error" ∧
    (ensure_mitigation c10_env "198.51.100.9" none).result.zone_id = none ∧
    (ensure_mitigation c10_env "198.51.100.9" none).create_calls ≠ [] :=
  ⟨by decide, C10_error_zone_id_none c10_env "198.51.100.9" none (by decide), by decide⟩

/-! ## Claim C2 -/

/-- C2: when the zone listing already contains a zone whose `zone_name`
equals the target IP, `ensure_mitigation` never issues the zone-create
call, and every monitor-enable call it issues targets the existing zone's
id with the loaded template's monitor payload. -/
theorem C2_existing_zone_idempotent (env : MitigationEnv) (ip_address : String)
    (templateArg : Option String) (zones : List ZoneSummary) (z : ZoneSummary)
    (hzl : env.zone_list = .ok zones)
    (hz : get_zone_by_ip zones ip_address = some z) :
    (ensure_mitigation env ip_address templateArg).create_calls = [] ∧
    ∀ c ∈ (ensure_mitigation env ip_address templateArg).monitor_calls,
      c.1 = z.id ∧ ∃ name template_data,
        env.get_template name = .ok template_data ∧
        c.2 = template_data.monitor_payload := by
  unfold ensure_mitigation
  cases hres : resolve_template env templateArg with
  | error e => exact ⟨rfl, fun c hc => absurd hc (List.not_mem_nil c)⟩
  | ok template =>
    dsimp only
    cases htd : env.get_template template with
    | error e => exact ⟨rfl, fun c hc => absurd hc (List.not_mem_nil c)⟩
    | ok template_data =>
      dsimp only
      rw [hzl]
      dsimp only
      rw [hz]
      have hsh := ensure_existing_shape env ip_address template template_data z
      refine ⟨hsh.2.1, ?_⟩
      intro c hc
      have hcz := hsh.2.2 c hc
      rw [hcz]
      exact ⟨rfl, template, template_data, htd, rfl⟩

/-- Environment whose zone listing already contains the target IP; the
create endpoint rejects any call to witness that none is issued. -/
def c2_env : MitigationEnv :=
  { list_templates := .ok [⟨"default"⟩],
    get_template := fun _ => .ok mit_template_data,
    zone_list := .ok [{ zone_name := some "203.0.113.5", id := some "zone-1111" }],
    get_zone_details := fun _ =>
      .ok { operational_mode := some "monitor", zone_service_list := ["dns"],
            uuid_dict := [], profile_name := some "default-profile" },
    create_zone := fun _ => .error "create must not be called",
    start_monitoring := fun _ _ => .ok (),
    send_notification := .ok (),
    notify_mitigation_start := false }

/-- Witness for C2: with the existing zone present the call issues no
create, succeeds, and re-applies the template's monitor payload. -/
theorem C2_existing_zone_idempotent_witness :
    (ensure_mitigation c2_env "203.0.113.5" none).create_calls = [] ∧
    (ensure_mitigation c2_env "203.0.113.5" none).result.status = "success" ∧
    (ensure_mitigation c2_env "203.0.113.5" none).monitor_calls =
      [(some "zone-1111", [("mode", "monitor")])] :=
  ⟨(C2_existing_zone_idempotent c2_env "203.0.113.5" none
      [{ zone_name := some "203.0.113.5", id := some "zone-1111" }]
      { zone_name := some "203.0.113.5", id := some "zone-1111" } rfl (by decide)).1,
   by decide, by decide⟩

/-! ## Claim C9 -/

theorem ensure_mitigation_resolve_error (env : MitigationEnv) (ip_address : String)
    (templateArg : Option String) (e : Exn)
    (h : resolve_template env templateArg = .error e) :
    ensure_mitigation env ip_address templateArg = ⟨err_result ip_address e, [], [], []⟩ := by
  unfold ensure_mitigation
  rw [h]

theorem multi_msg_strContains (templates : List TemplateInfo) (n : String)
    (hn : n ∈ templates.map (fun t => t.name)) :
    strContains (multi_templates_msg templates) n :=
  strContains_append_left _ _ _ (joinComma_strContains _ n hn)

/-- C9: with no template argument, zero stored templates yield an error
result; exactly one stored template is auto-selected and the call proceeds
exactly as if that template had been named; several stored templates yield
an error result whose message lists every stored template's name. -/
theorem C9_template_auto_selection (env : MitigationEnv) (ip_address : String) :
    (env.list_templates = .ok [] →
       (ensure_mitigation env ip_address none).result.status = "error") ∧
    (∀ t, env.list_templates = .ok [t] →
       resolve_template env none = .ok t.name ∧
       ensure_mitigation env ip_address none =
         ensure_mitigation env ip_address (some t.name)) ∧
    (∀ templates, env.list_templates = .ok templates → 2 ≤ templates.length →
       (ensure_mitigation env ip_address none).result.status = "error" ∧
       ∀ n ∈ templates.map (fun t => t.name),
         strContains (ensure_mitigation env ip_address none).result.message n) := by
  refine ⟨?_, ?_, ?_⟩
  · intro h
    have hres : resolve_template env none = .error no_templates_msg := by
      unfold resolve_template
      rw [h]
    rw [ensure_mitigation_resolve_error env ip_address none _ hres]
    rfl
  · intro t h
    have hres : resolve_template env none = .ok t.name := by
      unfold resolve_template
      rw [h]
    refine ⟨hres, ?_⟩
    unfold ensure_mitigation
    rw [hres]
    have hres2 : resolve_template env (some t.name) = .ok t.name := rfl
    rw [hres2]
  · intro templates h hlen
    match templates, hlen with
    | t1 :: t2 :: rest, _ =>
      have hres : resolve_template env none =
          .error (multi_templates_msg (t1 :: t2 :: rest)) := by
        unfold resolve_template
        rw [h]
      rw [ensure_mitigation_resolve_error env ip_address none _ hres]
      refine ⟨rfl, ?_⟩
      intro n hn
      exact strContains_append_left _ _ _ (multi_msg_strContains (t1 :: t2 :: rest) n hn)

/-- Environment holding two stored templates and nothing else of note. -/
def c9_env : MitigationEnv :=
  { list_templates := .ok [⟨"alpha"⟩, ⟨"beta"⟩],
    get_template := fun _ => .ok mit_template_data,
    zone_list := .ok [],
    get_zone_details := fun _ => .error "unused",
    create_zone := fun _ => .ok ⟨some "zone-2222"⟩,
    start_monitoring := fun _ _ => .ok (),
    send_notification := .ok (),
    notify_mitigation_start := false }

/-- Witness for C9: two stored templates and no argument produce an error
whose message lists both names. -/
theorem C9_template_auto_selection_witness :
    (ensure_mitigation c9_env "203.0.113.5" none).result.status = "error" ∧
    strContains (ensure_mitigation c9_env "203.0.113.5" none).result.message "alpha" ∧
    strContains (ensure_mitigation c9_env "203.0.113.5" none).result.message "beta" := by
  have h := (C9_template_auto_selection c9_env "203.0.113.5").2.2
    [⟨"alpha"⟩, ⟨"beta"⟩] rfl (by decide)
  exact ⟨h.1, h.2 "alpha" (by decide), h.2 "beta" (by decide)⟩
